import Mathlib

/-!
Shallow embedding of the multiplexing core of the mcp-proxy repository,
together with theorems settling the frozen claims C1 to C10.

Two source modules are embedded:

* `McpProxy` embeds `src/src/mcp_proxy/proxy_server.py`: the exception
  classifiers (`_iter_exceptions`, `_session_error_in_exception`,
  `_is_retryable_status`, `_retry_sleep_for`), the out-of-band error-queue
  drain and race in `_await_remote_call`, and the two retry loops
  (`_call_remote` and the `_call_tool` handler of `create_proxy_server`).
* `FoxxyBridge` embeds `src/src/mcp_foxxy_bridge/server_manager.py`
  (status model, effective namespaces, aggregation, routing, health checks)
  and `src/src/mcp_foxxy_bridge/config_loader.py` (`expand_env_vars` and
  the expansion-before-validation pipeline of
  `load_bridge_config_from_file`).

Modelling conventions: Python floats that only ever hold small dyadic
values (sleep durations, backoff) are modelled as `Rat`; Python
dictionaries as insertion-ordered association lists; async calls as
oracles `Nat → outcome` giving the result of the k-th remote invocation;
raised exceptions as an explicit `PyExc` tree. Caller cancellation
(`asyncio.CancelledError`, a `BaseException` that no `except Exception`
clause catches) is real-time control flow outside the shallow embedding
and is not part of the exception model.
-/

namespace McpProxy

/-- Substring test, `pat in s` of Python. Structural on the character
list so that concrete instances reduce by `decide`. -/
def listPrefixEq : List Char → List Char → Bool
  | [], _ => true
  | _ :: _, [] => false
  | p :: ps, c :: cs => p == c && listPrefixEq ps cs

/-- Occurrence of `pat` anywhere in `s` (character-list form). -/
def listContains (pat : List Char) : List Char → Bool
  | [] => pat.isEmpty
  | c :: cs => listPrefixEq pat (c :: cs) || listContains pat cs

/-- Python `pat in s` on strings. -/
def strContains (s pat : String) : Bool := listContains pat.data s.data

/-- Class of a raised Python exception, as dispatched by the `except`
clauses of `proxy_server.py`: `McpError` (carrying `error.code` and
`error.message`), `httpx.HTTPStatusError` (carrying
`response.status_code`, `none` when there is no response),
`httpx.TimeoutException`, `httpx.NetworkError`, builtin `TimeoutError`,
`ExceptionGroup`, or any other `Exception`. -/
inductive ExcKind where
  | mcpError (code : Int) (message : String)
  | httpStatusError (status : Option Nat)
  | httpTimeout
  | networkError
  | timeoutError
  | exceptionGroup
  | generic
  deriving DecidableEq

/-- A Python exception value: its class, its `str(exc)` rendering, and
the nested exceptions reachable from it — the members of an
`ExceptionGroup`, or the `__cause__`/`__context__` chain of a plain
exception (both are walked identically by `_iter_exceptions`). -/
inductive PyExc where
  | mk (kind : ExcKind) (text : String) (inner : List PyExc)

/-- The exception class (decides which `except` clause catches it). -/
def PyExc.kind : PyExc → ExcKind
  | .mk k _ _ => k

/-- `str(exc)`. -/
def PyExc.text : PyExc → String
  | .mk _ t _ => t

/-- Nested exceptions (group members or cause/context chain). -/
def PyExc.inner : PyExc → List PyExc
  | .mk _ _ i => i

/-- `_iter_exceptions` (proxy_server.py:20-36): yield all nested
exceptions. A `BaseExceptionGroup` yields only its members, recursively;
any other exception yields itself and then walks its chained
exceptions. -/
def _iter_exceptions (e : PyExc) : List PyExc :=
  match e with
  | .mk .exceptionGroup _ inner =>
      inner.attach.flatMap (fun x => _iter_exceptions x.1)
  | .mk k t inner =>
      PyExc.mk k t inner :: inner.attach.flatMap (fun x => _iter_exceptions x.1)
termination_by e
decreasing_by
  all_goals
    have h := List.sizeOf_lt_of_mem x.2
    simp only [PyExc.mk.sizeOf_spec]
    omega

/-- The per-leaf test of `_session_error_in_exception`
(proxy_server.py:387-401): an `McpError` with code `-32001`, or code
`32600` whose message mentions session termination, or any exception
whose text carries one of the session-loss markers. -/
def _session_error_leaf (leaf : PyExc) : Bool :=
  (match leaf.kind with
   | .mcpError code msg =>
       code == (-32001 : Int) || (code == 32600 && strContains msg "Session terminated")
   | _ => false)
  || strContains leaf.text "Session not found"
  || strContains leaf.text "-32001"
  || strContains leaf.text "Session terminated"

/-- `_session_error_in_exception` (proxy_server.py:387-401). -/
def _session_error_in_exception (err : PyExc) : Bool :=
  (_iter_exceptions err).any _session_error_leaf

/-- `_is_retryable_status` (proxy_server.py:375-378). -/
def _is_retryable_status : Option Nat → Bool
  | none => false
  | some status => (400 ≤ status && status < 500) || status == 503

/-- `_retry_sleep_for` (proxy_server.py:380-385): the retry-sleep table.
0 on HTTP 404, 0.2 s on a logical session error, 0 otherwise. -/
def _retry_sleep_for (status : Option Nat) (session_error : Bool) : Rat :=
  if status == some 404 then 0
  else if session_error then 0.2
  else 0

/-- Python `x or y` on floats: `y` when `x` is falsy (equal to 0),
otherwise `x`. Used at every `_retry_sleep_for(...) or backoff_s`
call site. -/
def pyOrRat (x y : Rat) : Rat := if x == 0 then y else x

/-- `_retryable_status_in_error` (proxy_server.py:560-566): first
`httpx.HTTPStatusError` with a retryable status in the nested chain. -/
def _retryable_status_in_error (err : PyExc) : Option Nat :=
  go (_iter_exceptions err)
where
  /-- Scan the yielded leaves in order. -/
  go : List PyExc → Option Nat
  | [] => none
  | leaf :: rest =>
    match leaf.kind with
    | .httpStatusError status =>
        if _is_retryable_status status then status else go rest
    | _ => go rest

/-- Outcome of one remote invocation: a result, or a raised exception. -/
inductive CallOutcome (α : Type) where
  | ok (v : α)
  | exc (e : PyExc)

/-- `_drain_error_queue` (proxy_server.py:60-67): pop the out-of-band
HTTP error queue with `get_nowait` until `QueueEmpty`. -/
def _drain_error_queue : List PyExc → List PyExc
  | [] => []
  | _ :: rest => _drain_error_queue rest

/-- Which of the raced tasks of `_await_remote_call` finishes first:
the in-flight call, the `error_queue.get()` observer, or the
`call_timeout_s` deadline. -/
inductive RaceWinner where
  | callDone
  | queueError
  | deadline
  deriving DecidableEq

/-- `_await_remote_call` (proxy_server.py:173-244), one remote attempt.
`queue0` is the content of the error queue when the attempt starts and
`arrivals` the errors pushed while the call is in flight. The function
first drains the queue, then races the call against `error_queue.get()`
under the deadline: on deadline it raises `TimeoutError`, on a queue
error it cancels the call and raises that error (when the post-drain
queue is empty the observer task never fires, so the call outcome
stands), otherwise it returns or raises the call's own outcome. -/
def _await_remote_call {α : Type} (queue0 arrivals : List PyExc)
    (callOutcome : CallOutcome α) (winner : RaceWinner) (timeoutText : String) :
    Except PyExc α :=
  let q := _drain_error_queue queue0 ++ arrivals
  match winner with
  | .deadline => .error (PyExc.mk .timeoutError timeoutText [])
  | .queueError =>
    match q with
    | e :: _ => .error e
    | [] =>
      match callOutcome with
      | .ok v => .ok v
      | .exc e => .error e
  | .callDone =>
    match callOutcome with
    | .ok v => .ok v
    | .exc e => .error e

/-- Trace of one run of the `_call_remote` retry loop: the final result,
how many times the underlying remote call was invoked, how many recovery
actions (`_rebuild_or_initialize*` or a bare re-handshake) ran, and the
sequence of `asyncio.sleep` durations in seconds. -/
structure RemoteLoopOut (α : Type) where
  result : Except PyExc α
  calls : Nat
  recoveries : Nat
  sleeps : List Rat

/-- The `while True` body of `_call_remote` (proxy_server.py:403-461).
`oracle k` is the outcome of the k-th remote invocation (the protected
call through the semaphore and `_await_remote_call`); `attempts` and
`backoff_s` are the loop variables of the source. Re-handshakes and
rebuilds performed between attempts are counted in `recoveries` and do
not consume the oracle. -/
def call_remote_go {α : Type} (oracle : Nat → CallOutcome α) (max_attempts : Nat)
    (attempts : Nat) (backoff_s : Rat) (k recov : Nat) (sleeps : List Rat) :
    RemoteLoopOut α :=
  match oracle k with
  | .ok v => { result := .ok v, calls := k + 1, recoveries := recov, sleeps := sleeps }
  | .exc e =>
    match e.kind with
    | .httpStatusError status =>
      if h1 : _is_retryable_status status = false ∨ max_attempts ≤ attempts + 1 then
        { result := .error e, calls := k + 1, recoveries := recov, sleeps := sleeps }
      else
        let sleep_s := pyOrRat (_retry_sleep_for status false) backoff_s
        let sleeps' := if sleep_s == 0 then sleeps else sleeps ++ [sleep_s]
        let backoff' := if status == some 404 then backoff_s else min 5 (backoff_s * 2)
        call_remote_go oracle max_attempts (attempts + 1) backoff' (k + 1) (recov + 1) sleeps'
    | .httpTimeout | .networkError | .timeoutError =>
      if h2 : max_attempts ≤ attempts + 1 then
        { result := .error e, calls := k + 1, recoveries := recov, sleeps := sleeps }
      else
        call_remote_go oracle max_attempts (attempts + 1) (min 5 (backoff_s * 2)) (k + 1)
          (recov + 1) (sleeps ++ [backoff_s])
    | _ =>
      if h3 : _session_error_in_exception e = true ∧ attempts + 1 < max_attempts then
        let sleep_s := pyOrRat (_retry_sleep_for none true) backoff_s
        let sleeps' := if sleep_s == 0 then sleeps else sleeps ++ [sleep_s]
        call_remote_go oracle max_attempts (attempts + 1) (min 5 (backoff_s * 2)) (k + 1)
          (recov + 1) sleeps'
      else
        { result := .error e, calls := k + 1, recoveries := recov, sleeps := sleeps }
termination_by max_attempts - attempts
decreasing_by
  all_goals omega

/-- `_call_remote` entered with the loop variables of the source
(`attempts = 0`, `backoff_s = 0.5`) and the attempt bound
`max_attempts = 1 + max(0, retry_attempts)` of create_proxy_server
(proxy_server.py:47-48); a `Nat` budget makes the clamp the identity. -/
def _call_remote {α : Type} (oracle : Nat → CallOutcome α) (retry_attempts : Nat) :
    RemoteLoopOut α :=
  call_remote_go oracle (1 + retry_attempts) 0 0.5 0 0 []

/-- One content item of a tool reply; `type` is the discriminator the
source reads with `getattr(item, "type", None)`. -/
structure TextContent where
  type : String
  text : String
  deriving DecidableEq

/-- `types.CallToolResult`, restricted to the fields the source reads. -/
structure CallToolResult where
  content : List TextContent
  isError : Bool
  deriving DecidableEq

/-- `_is_session_error_result` (proxy_server.py:568-579): an error
result whose text content carries a session-loss marker. -/
def _is_session_error_result (result : CallToolResult) : Bool :=
  result.isError &&
    result.content.any (fun item =>
      item.type == "text" &&
        (strContains item.text "Session not found" || strContains item.text "-32001" ||
         strContains item.text "Session terminated"))

/-- How one run of the `_call_tool` retry loop ended: a returned result,
a raised exception (caught by the surrounding `except Exception`), or
falling off the `while` loop (which would make the handler return
`None`). -/
inductive ToolLoopResult where
  | returned (r : CallToolResult)
  | raised (e : PyExc)
  | fellThrough

/-- Trace of one run of the `_call_tool` retry loop. `inits` counts the
direct `remote_app.initialize()` calls of the session-error branches,
`recoveries` the `_rebuild_or_initialize*` recovery actions. -/
structure ToolLoopOut where
  outcome : ToolLoopResult
  calls : Nat
  inits : Nat
  recoveries : Nat
  sleeps : List Rat

/-- The `while attempts < max_attempts` loop of `_call_tool`
(proxy_server.py:581-665). `oracle k` is the outcome of the k-th
`_call_remote_once` invocation of `remote_app.call_tool`. -/
def call_tool_go (oracle : Nat → CallOutcome CallToolResult) (max_attempts : Nat)
    (attempts : Nat) (backoff_s : Rat) (k inits recov : Nat) (sleeps : List Rat) :
    ToolLoopOut :=
  if hw : attempts < max_attempts then
    match oracle k with
    | .ok result =>
      if h0 : _is_session_error_result result = true ∧ attempts + 1 < max_attempts then
        call_tool_go oracle max_attempts (attempts + 1) (min 5 (backoff_s * 2)) (k + 1)
          (inits + 1) recov (sleeps ++ [backoff_s])
      else
        { outcome := .returned result, calls := k + 1, inits := inits,
          recoveries := recov, sleeps := sleeps }
    | .exc e =>
      match e.kind with
      | .httpStatusError status =>
        if h1 : _is_retryable_status status = false ∨ max_attempts ≤ attempts + 1 then
          { outcome := .raised e, calls := k + 1, inits := inits,
            recoveries := recov, sleeps := sleeps }
        else
          let sleep_s := pyOrRat (_retry_sleep_for status false) backoff_s
          let sleeps' := if sleep_s == 0 then sleeps else sleeps ++ [sleep_s]
          let backoff' := if status == some 404 then backoff_s else min 5 (backoff_s * 2)
          call_tool_go oracle max_attempts (attempts + 1) backoff' (k + 1) inits (recov + 1)
            sleeps'
      | .httpTimeout | .networkError | .timeoutError =>
        if h2 : max_attempts ≤ attempts + 1 then
          { outcome := .raised e, calls := k + 1, inits := inits,
            recoveries := recov, sleeps := sleeps }
        else
          let sleeps' := if backoff_s == 0 then sleeps else sleeps ++ [backoff_s]
          call_tool_go oracle max_attempts (attempts + 1) (min 5 (backoff_s * 2)) (k + 1)
            inits (recov + 1) sleeps'
      | _ =>
        match _retryable_status_in_error e with
        | some s =>
          if h3 : attempts + 1 < max_attempts then
            let sleep_s := pyOrRat (_retry_sleep_for (some s) false) backoff_s
            let sleeps' := if sleep_s == 0 then sleeps else sleeps ++ [sleep_s]
            let backoff' := if s == 404 then backoff_s else min 5 (backoff_s * 2)
            call_tool_go oracle max_attempts (attempts + 1) backoff' (k + 1) inits (recov + 1)
              sleeps'
          else if h4 : _session_error_in_exception e = true ∧ attempts + 1 < max_attempts then
            let sleep_s := pyOrRat (_retry_sleep_for none true) backoff_s
            let sleeps' := if sleep_s == 0 then sleeps else sleeps ++ [sleep_s]
            call_tool_go oracle max_attempts (attempts + 1) (min 5 (backoff_s * 2)) (k + 1)
              (inits + 1) recov sleeps'
          else
            { outcome := .raised e, calls := k + 1, inits := inits,
              recoveries := recov, sleeps := sleeps }
        | none =>
          if h5 : _session_error_in_exception e = true ∧ attempts + 1 < max_attempts then
            let sleep_s := pyOrRat (_retry_sleep_for none true) backoff_s
            let sleeps' := if sleep_s == 0 then sleeps else sleeps ++ [sleep_s]
            call_tool_go oracle max_attempts (attempts + 1) (min 5 (backoff_s * 2)) (k + 1)
              (inits + 1) recov sleeps'
          else
            { outcome := .raised e, calls := k + 1, inits := inits,
              recoveries := recov, sleeps := sleeps }
  else
    { outcome := .fellThrough, calls := k, inits := inits, recoveries := recov,
      sleeps := sleeps }
termination_by max_attempts - attempts
decreasing_by
  all_goals omega

/-- The `_call_tool` retry loop entered as in the source: `attempts = 0`,
`backoff_s = 0.5`, `max_attempts = 1 + max(0, retry_attempts)`. -/
def call_tool_run (oracle : Nat → CallOutcome CallToolResult) (retry_attempts : Nat) :
    ToolLoopOut :=
  call_tool_go oracle (1 + retry_attempts) 0 0.5 0 0 0 []

/-- The `_call_tool` handler (proxy_server.py:555-672): the loop wrapped
in `except Exception`, which converts any raised error into a synthetic
`CallToolResult` with `isError = true` and a single text item holding
`str(e)`. `none` models the implicit `return None` that would follow if
the loop ever fell through. -/
def call_tool_handler (oracle : Nat → CallOutcome CallToolResult) (retry_attempts : Nat) :
    Option CallToolResult :=
  match (call_tool_run oracle retry_attempts).outcome with
  | .returned r => some r
  | .raised e => some { content := [{ type := "text", text := e.text }], isError := true }
  | .fellThrough => none

end McpProxy

namespace FoxxyBridge

/-- `HealthCheckConfig` (config_loader.py:83-88); intervals in ms. -/
structure HealthCheckConfig where
  enabled : Bool
  interval : Nat
  timeout : Nat
  deriving DecidableEq

/-- `BridgeServerConfig` (config_loader.py:91-118), the per-backend
settings read by the server manager. -/
structure BridgeServerConfig where
  name : String
  enabled : Bool
  command : String
  args : List String
  env : List (String × String)
  timeout : Nat
  transport_type : String
  retry_attempts : Nat
  retry_delay : Nat
  health_check : HealthCheckConfig
  tool_namespace : Option String
  resource_namespace : Option String
  prompt_namespace : Option String
  priority : Int
  tags : List String
  deriving DecidableEq

/-- `AggregationConfig` (config_loader.py:121-126). -/
structure AggregationConfig where
  tools : Bool
  resources : Bool
  prompts : Bool
  deriving DecidableEq

/-- `FailoverConfig` (config_loader.py:129-134). -/
structure FailoverConfig where
  enabled : Bool
  max_failures : Nat
  recovery_interval : Nat
  deriving DecidableEq

/-- `BridgeConfig` (config_loader.py:137-149): bridge-wide behaviour. -/
structure BridgeConfig where
  conflict_resolution : String
  default_namespace : Bool
  aggregation : AggregationConfig
  failover : FailoverConfig
  deriving DecidableEq

/-- `BridgeConfiguration`: the servers dict (insertion-ordered) plus the
bridge settings. -/
structure BridgeConfiguration where
  servers : List (String × BridgeServerConfig)
  bridge : BridgeConfig
  deriving DecidableEq

/-- `ServerStatus` (server_manager.py:42-48). -/
inductive ServerStatus where
  | connecting
  | connected
  | disconnected
  | failed
  | disabled
  deriving DecidableEq

/-- `types.ServerCapabilities`, restricted to the advertised-capability
flags the manager reads. -/
structure ServerCapabilities where
  tools : Bool
  resources : Bool
  prompts : Bool
  deriving DecidableEq

/-- `ServerHealth` (server_manager.py:51-58). `last_seen` is a
`time.time()` stamp, modelled as a rational. -/
structure ServerHealth where
  status : ServerStatus
  last_seen : Rat
  failure_count : Nat
  last_error : Option String
  capabilities : Option ServerCapabilities
  deriving DecidableEq

/-- `types.Tool`, the fields the aggregator copies. `inputSchema` stands
for the opaque JSON schema value. -/
structure Tool where
  name : String
  description : Option String
  inputSchema : String
  deriving DecidableEq

/-- `types.Resource`, the fields the aggregator copies. -/
structure Resource where
  uri : String
  name : String
  description : Option String
  mimeType : Option String
  deriving DecidableEq

/-- `types.Prompt`, the fields the aggregator copies; arguments stand in
as opaque names. -/
structure Prompt where
  name : String
  description : Option String
  arguments : List String
  deriving DecidableEq

/-- `ManagedServer` (server_manager.py:61-70). The `ClientSession` slot
is modelled as an opaque session identifier; `none` is Python `None`. -/
structure ManagedServer where
  name : String
  config : BridgeServerConfig
  session : Option Nat
  health : ServerHealth
  tools : List Tool
  resources : List Resource
  prompts : List Prompt
  deriving DecidableEq

/-- Python truthiness of an `Optional[str]`: `None` and `""` are falsy. -/
def optStrTruthy : Option String → Bool
  | none => false
  | some s => s != ""

/-- `ManagedServer.get_effective_namespace` (server_manager.py:72-86):
the explicit per-kind override when truthy, else the server name when
`default_namespace` is on, else `None`. -/
def ManagedServer.get_effective_namespace (server : ManagedServer)
    (capability_type : String) (bridge_config : BridgeConfig) : Option String :=
  if capability_type == "tools" && optStrTruthy server.config.tool_namespace then
    server.config.tool_namespace
  else if capability_type == "resources" && optStrTruthy server.config.resource_namespace then
    server.config.resource_namespace
  else if capability_type == "prompts" && optStrTruthy server.config.prompt_namespace then
    server.config.prompt_namespace
  else if bridge_config.default_namespace then
    some server.name
  else
    none

/-- The `ServerManager` state the queries read: the bridge configuration
and the managed-server dict in insertion order. -/
structure ServerManager where
  bridge_config : BridgeConfiguration
  servers : List (String × ManagedServer)

/-- `ServerManager.get_active_servers` (server_manager.py:286-289):
the CONNECTED servers, in dict insertion order — the source applies no
sort here. -/
def ServerManager.get_active_servers (m : ServerManager) : List ManagedServer :=
  (m.servers.map Prod.snd).filter (fun server => server.health.status == ServerStatus.connected)

/-- `ServerManager.get_server_by_name` (server_manager.py:291-293). -/
def ServerManager.get_server_by_name (m : ServerManager) (name : String) :
    Option ManagedServer :=
  (m.servers.find? (fun p => p.1 == name)).map Prod.snd

/-- Stable insertion of `x` into a list already sorted by `key`,
placing `x` after every strictly smaller key and before equal keys that
originated later. -/
def stableInsert {α : Type} (key : α → Int) (x : α) : List α → List α
  | [] => [x]
  | y :: ys => if key y < key x then y :: stableInsert key x ys else x :: y :: ys

/-- Python `sorted(l, key=key)`: a stable sort, modelled as stable
insertion sort. Used for `sorted(self.get_active_servers(), key=lambda
s: s.config.priority)` in the aggregation methods. -/
def sortByKey {α : Type} (key : α → Int) : List α → List α
  | [] => []
  | x :: xs => stableInsert key x (sortByKey key xs)

/-- The inner `for tool in server.tools` loop of
`ServerManager.get_aggregated_tools` (server_manager.py:303-327) for one
server with effective namespace `ns`: on a name collision, `error`
raises, `first` skips, and every other policy (including `priority` and
`namespace`) falls through and appends the tool again. -/
def aggregate_tools_go (conflict_resolution : String) (ns : Option String) :
    List Tool → List Tool → List String → Except String (List Tool × List String)
  | [], acc, seen => .ok (acc, seen)
  | tool :: rest, acc, seen =>
    let tool_name :=
      match ns with
      | some n => if n != "" then n ++ "." ++ tool.name else tool.name
      | none => tool.name
    if tool_name ∈ seen then
      if conflict_resolution == "error" then
        .error ("Tool name conflict: " ++ tool_name)
      else if conflict_resolution == "first" then
        aggregate_tools_go conflict_resolution ns rest acc seen
      else
        aggregate_tools_go conflict_resolution ns rest
          (acc ++ [{ name := tool_name, description := tool.description,
                     inputSchema := tool.inputSchema }])
          (tool_name :: seen)
    else
      aggregate_tools_go conflict_resolution ns rest
        (acc ++ [{ name := tool_name, description := tool.description,
                   inputSchema := tool.inputSchema }])
        (tool_name :: seen)

/-- The outer server loop of `get_aggregated_tools`. -/
def aggregate_servers_tools (bridge : BridgeConfig) :
    List ManagedServer → List Tool → List String → Except String (List Tool × List String)
  | [], acc, seen => .ok (acc, seen)
  | server :: rest, acc, seen =>
    match aggregate_tools_go bridge.conflict_resolution
        (server.get_effective_namespace "tools" bridge) server.tools acc seen with
    | .error msg => .error msg
    | .ok (acc', seen') => aggregate_servers_tools bridge rest acc' seen'

/-- `ServerManager.get_aggregated_tools` (server_manager.py:295-329):
visit the active servers sorted by priority (stable) and merge their
tool lists; a `ValueError` of the `error` policy is the `Except.error`
case. -/
def ServerManager.get_aggregated_tools (m : ServerManager) : Except String (List Tool) :=
  let active_servers := sortByKey (fun s : ManagedServer => s.config.priority)
    m.get_active_servers
  match aggregate_servers_tools m.bridge_config.bridge active_servers [] [] with
  | .error msg => .error msg
  | .ok (tools, _) => .ok tools

/-- Python `tool_name.split(".", 1)` guarded by `"." in tool_name`:
`none` when the separator is absent, otherwise the split at the first
occurrence. -/
def splitOnceChar (sep : Char) (s : String) : Option (String × String) :=
  match go s.data with
  | none => none
  | some (l, r) => some (String.mk l, String.mk r)
where
  /-- Split a character list at the first occurrence of `sep`. -/
  go : List Char → Option (List Char × List Char)
  | [] => none
  | c :: cs =>
    if c == sep then some ([], cs)
    else
      match go cs with
      | none => none
      | some (l, r) => some (c :: l, r)

/-- `ServerManager.call_tool`, routing part (server_manager.py:402-428):
resolve the owning server for a tool name, returning the chosen server
name and the local tool name, or the `ValueError` message. A namespaced
name is matched against effective namespaces; a bare name is matched
against the active servers in dict insertion order — the source applies
no priority sort on this path. -/
def ServerManager.call_tool_route (m : ServerManager) (tool_name : String) :
    Except String (String × String) :=
  let resolved :=
    match splitOnceChar '.' tool_name with
    | some (ns, actual_tool_name) =>
      ((m.get_active_servers).find? (fun s : ManagedServer =>
          (match s.get_effective_namespace "tools" m.bridge_config.bridge with
           | some sns => sns == ns
           | none => false)
          && s.tools.any (fun tool => tool.name == actual_tool_name)),
       actual_tool_name)
    | none =>
      ((m.get_active_servers).find? (fun s =>
          s.tools.any (fun tool => tool.name == tool_name)),
       tool_name)
  match resolved with
  | (none, _) => .error ("No active server found for tool: " ++ tool_name)
  | (some server, actual_tool_name) =>
    match server.session with
    | none => .error ("No active server found for tool: " ++ tool_name)
    | some _ =>
      if server.tools.any (fun tool => tool.name == actual_tool_name) then
        .ok (server.name, actual_tool_name)
      else
        .error ("Tool not found on server: " ++ actual_tool_name)

/-- Outcome of the per-server health probe
(`asyncio.wait_for(server.session.list_tools(), timeout=5.0)`):
success, or any exception rendered as text. -/
inductive ProbeOutcome where
  | ok
  | fail (err : String)
  deriving DecidableEq

/-- `ServerManager._disconnect_server` (server_manager.py:212-221):
clear the session slot, set status DISCONNECTED, clear the cached
catalogues. The server row itself stays in the pool. -/
def _disconnect_server (server : ManagedServer) : ManagedServer :=
  { server with
    session := none,
    health := { server.health with status := ServerStatus.disconnected },
    tools := [], resources := [], prompts := [] }

/-- The per-server body of `ServerManager._perform_health_checks`
(server_manager.py:262-284): only CONNECTED servers with a session are
probed; success stamps `last_seen` (and nothing else); failure bumps
`failure_count`, records the error, and at the failover threshold sets
status FAILED and then runs `_disconnect_server` (which overwrites the
status with DISCONNECTED). -/
def health_check_server (failover : FailoverConfig) (now : Rat)
    (probe : ProbeOutcome) (server : ManagedServer) : ManagedServer :=
  if server.health.status == ServerStatus.connected && server.session.isSome then
    match probe with
    | .ok =>
      { server with health := { server.health with last_seen := now } }
    | .fail err =>
      let health' := { server.health with
        failure_count := server.health.failure_count + 1, last_error := some err }
      if failover.max_failures ≤ health'.failure_count then
        _disconnect_server { server with health := { health' with status := ServerStatus.failed } }
      else
        { server with health := health' }
  else
    server

/-- `ServerManager._perform_health_checks` over the whole pool, with
`probes` giving each server's probe outcome for this tick. -/
def ServerManager._perform_health_checks (m : ServerManager) (now : Rat)
    (probes : String → ProbeOutcome) : ServerManager :=
  { m with servers := m.servers.map (fun p =>
      (p.1, health_check_server m.bridge_config.bridge.failover now (probes p.1) p.2)) }

/-- The `_call_tool` handler of the bridge facade
(bridge_server.py:169-190): delegate to `server_manager.call_tool` and
convert any raised exception into a `CallToolResult` with
`isError = true` and one text item `Error calling tool: str(e)`.
Exceptions surface here as their message strings (the `ValueError`s of
the routing layer). -/
def _call_tool_facade (outcome : Except String McpProxy.CallToolResult) :
    McpProxy.CallToolResult :=
  match outcome with
  | .ok result => result
  | .error e =>
    { content := [{ type := "text", text := "Error calling tool: " ++ e }],
      isError := true }

/-- The opening brace character, `\x7b`. -/
def braceOpen : Char := '\x7b'

/-- The closing brace character, `\x7d`. -/
def braceClose : Char := '\x7d'

/-- Greedy scan of a maximal run of characters satisfying `p`, with the
remainder: the character-class matching of the regex. -/
def spanChars (p : Char → Bool) : List Char → List Char × List Char
  | [] => ([], [])
  | c :: cs =>
    if p c then
      let r := spanChars p cs
      (c :: r.1, r.2)
    else
      ([], c :: cs)

/-- The remainder of a greedy scan never grows. -/
theorem spanChars_snd_length_le (p : Char → Bool) (l : List Char) :
    (spanChars p l).2.length ≤ l.length := by
  induction l with
  | nil => simp [spanChars]
  | cons c cs ih =>
    by_cases hc : p c = true
    · simpa [spanChars, hc] using Nat.le_succ_of_le ih
    · simp [spanChars, hc]

/-- Characters allowed in a variable name by the pattern
`\$\x7b([^\x7d:]+)(?::([^\x7d]*))?\x7d`: anything but `:` and the
closing brace. -/
def nameChar (c : Char) : Bool := !(c == ':' || c == braceClose)

/-- Characters allowed in a default value: anything but the closing
brace. -/
def defaultChar (c : Char) : Bool := !(c == braceClose)

/-- Attempt to match the tail of the variable pattern right after the
opening `$\x7b`: a non-empty name, an optional `:`-separated default,
and the closing brace. `none` when the regex does not match here. -/
def parseVar (cs : List Char) : Option (String × Option String × List Char) :=
  match spanChars nameChar cs with
  | ([], _) => none
  | (_, []) => none
  | (nm, c :: rest) =>
    if c == braceClose then
      some (String.mk nm, none, rest)
    else
      match spanChars defaultChar rest with
      | (_, []) => none
      | (d, _ :: rest2) => some (String.mk nm, some (String.mk d), rest2)

/-- A successful pattern match only consumes characters. -/
theorem parseVar_length_le {cs : List Char} {name : String} {dflt : Option String}
    {rest : List Char} (h : parseVar cs = some (name, dflt, rest)) :
    rest.length ≤ cs.length := by
  have hp := spanChars_snd_length_le nameChar cs
  unfold parseVar at h
  split at h
  · simp at h
  · simp at h
  · rename_i x0 nm c rest1 hnc heq
    rw [heq] at hp
    simp only [List.length_cons] at hp
    have hq := spanChars_snd_length_le defaultChar rest1
    split at h
    · rw [Option.some.injEq] at h
      obtain ⟨-, -, rfl⟩ := Prod.mk.injEq .. ▸ h
      omega
    · split at h
      · simp at h
      · rename_i heq2
        rw [heq2] at hq
        simp only [List.length_cons] at hq
        rw [Option.some.injEq] at h
        obtain ⟨-, -, rfl⟩ := Prod.mk.injEq .. ▸ h
        omega

/-- `expand_env_vars` on one string value (config_loader.py:57-71): the
left-to-right `re.sub` of `\$\x7b([^\x7d:]+)(?::([^\x7d]*))?\x7d`. Each
match is replaced by `os.getenv(name, default)` where a missing default
is the empty string; the second component collects the names warned
about (`env_value == "" and match.group(2) is None`). On a position
where the pattern fails to match, scanning resumes at the next
character, as `re.sub` does. -/
def expandChars (env : String → Option String) : List Char → List Char × List String
  | [] => ([], [])
  | [c] => ([c], [])
  | c1 :: c2 :: rest =>
    if c1 = '$' ∧ c2 = braceOpen then
      match h : parseVar rest with
      | some (var_name, default_opt, rest2) =>
        let default_value := default_opt.getD ""
        let env_value := (env var_name).getD default_value
        let warn := env_value == "" && default_opt.isNone
        let out := expandChars env rest2
        (env_value.data ++ out.1, (if warn then [var_name] else []) ++ out.2)
      | none =>
        let out := expandChars env (c2 :: rest)
        (c1 :: out.1, out.2)
    else
      let out := expandChars env (c2 :: rest)
      (c1 :: out.1, out.2)
termination_by cs => cs.length
decreasing_by
  all_goals simp only [List.length_cons]
  all_goals first
    | omega
    | (have hlen := parseVar_length_le h; omega)

/-- String form of `expandChars`. -/
def expand_env_string (env : String → Option String) (s : String) : String × List String :=
  let out := expandChars env s.data
  (String.mk out.1, out.2)

/-- A parsed JSON configuration value. -/
inductive JsonValue where
  | str (s : String)
  | num (n : Int)
  | bool (b : Bool)
  | null
  | obj (fields : List (String × JsonValue))
  | arr (items : List JsonValue)

/-- `expand_env_vars` (config_loader.py:46-80): strings are rewritten by
the regex substitution, dictionaries and lists are walked recursively,
anything else is returned unchanged. The second component collects the
warnings of the whole walk. -/
def expand_env_vars (env : String → Option String) : JsonValue → JsonValue × List String
  | .str s =>
    let r := expand_env_string env s
    (.str r.1, r.2)
  | .obj fields =>
    let rs := fields.attach.map (fun x => (x.1.1, expand_env_vars env x.1.2))
    (.obj (rs.map (fun p => (p.1, p.2.1))), (rs.map (fun p => p.2.2)).flatten)
  | .arr items =>
    let rs := items.attach.map (fun x => expand_env_vars env x.1)
    (.arr (rs.map Prod.fst), (rs.map Prod.snd).flatten)
  | .num n => (.num n, [])
  | .bool b => (.bool b, [])
  | .null => (.null, [])
termination_by j => sizeOf j
decreasing_by
  · have h := List.sizeOf_lt_of_mem x.2
    have h2 : sizeOf x.1.2 < sizeOf x.1 := by
      rcases x.1 with ⟨a, b⟩
      simp
    simp only [JsonValue.obj.sizeOf_spec]
    omega
  · have h := List.sizeOf_lt_of_mem x.2
    simp only [JsonValue.arr.sizeOf_spec]
    omega

/-- The shape check of `load_bridge_config_from_file`
(config_loader.py:465-468): the parsed value must be a dict carrying the
`mcpServers` key. -/
def bridge_config_valid_shape (j : JsonValue) : Bool :=
  match j with
  | .obj fields => fields.any (fun p => p.1 == "mcpServers")
  | _ => false

/-- The expansion-then-validation pipeline of
`load_bridge_config_from_file` (config_loader.py:444-472): the parsed
tree is env-expanded first, and the shape/schema validation runs on the
expanded tree. -/
def load_bridge_config (env : String → Option String) (config_data : JsonValue) :
    Except String (JsonValue × List String) :=
  let r := expand_env_vars env config_data
  if bridge_config_valid_shape r.1 then .ok r
  else .error "Invalid config file format. Missing mcpServers key."

end FoxxyBridge

open McpProxy FoxxyBridge

/-- The `_call_remote` loop consumes at most one oracle call per unit of
remaining attempt budget. -/
theorem call_remote_go_calls_le {α : Type} (oracle : Nat → CallOutcome α)
    (max_attempts : Nat) (n : Nat) :
    ∀ (attempts : Nat) (backoff_s : Rat) (k recov : Nat) (sleeps : List Rat),
      max_attempts - attempts ≤ n → attempts < max_attempts →
      (call_remote_go oracle max_attempts attempts backoff_s k recov sleeps).calls ≤
        k + (max_attempts - attempts) := by
  induction n with
  | zero =>
    intro attempts _ _ _ _ hn hlt
    omega
  | succ n ih =>
    intro attempts backoff_s k recov sleeps hn hlt
    rw [call_remote_go]
    split
    · simp
      omega
    · split
      · split
        · rename_i h1
          simp
          omega
        · rename_i h1
          have hlt2 : attempts + 1 < max_attempts := by
            rcases not_or.mp h1 with ⟨-, h⟩
            omega
          exact le_trans (ih (attempts + 1) _ (k + 1) (recov + 1) _ (by omega) hlt2)
            (by omega)
      · split
        · simp
          omega
        · rename_i h2
          exact le_trans (ih (attempts + 1) _ (k + 1) (recov + 1) _ (by omega) (by omega))
            (by omega)
      · split
        · simp
          omega
        · rename_i h2
          exact le_trans (ih (attempts + 1) _ (k + 1) (recov + 1) _ (by omega) (by omega))
            (by omega)
      · split
        · simp
          omega
        · rename_i h2
          exact le_trans (ih (attempts + 1) _ (k + 1) (recov + 1) _ (by omega) (by omega))
            (by omega)
      · split
        · rename_i h3
          exact le_trans (ih (attempts + 1) _ (k + 1) (recov + 1) _ (by omega) (by omega))
            (by omega)
        · simp
          omega

/-- The `_call_tool` loop consumes at most one oracle call per unit of
remaining attempt budget. -/
theorem call_tool_go_calls_le (oracle : Nat → CallOutcome CallToolResult)
    (max_attempts : Nat) (n : Nat) :
    ∀ (attempts : Nat) (backoff_s : Rat) (k inits recov : Nat) (sleeps : List Rat),
      max_attempts - attempts ≤ n →
      (call_tool_go oracle max_attempts attempts backoff_s k inits recov sleeps).calls ≤
        k + (max_attempts - attempts) := by
  induction n with
  | zero =>
    intro attempts backoff_s k inits recov sleeps hn
    rw [call_tool_go, dif_neg (by omega : ¬ attempts < max_attempts)]
    simp
  | succ n ih =>
    intro attempts backoff_s k inits recov sleeps hn
    by_cases hw : attempts < max_attempts
    · rw [call_tool_go, dif_pos hw]
      split
      · split
        · rename_i h0
          exact le_trans (ih (attempts + 1) _ (k + 1) (inits + 1) recov _ (by omega))
            (by omega)
        · simp
          omega
      · split
        · split
          · simp
            omega
          · rename_i h1
            exact le_trans (ih (attempts + 1) _ (k + 1) inits (recov + 1) _ (by omega))
              (by omega)
        · split
          · simp
            omega
          · rename_i h2
            exact le_trans (ih (attempts + 1) _ (k + 1) inits (recov + 1) _ (by omega))
              (by omega)
        · split
          · simp
            omega
          · rename_i h2
            exact le_trans (ih (attempts + 1) _ (k + 1) inits (recov + 1) _ (by omega))
              (by omega)
        · split
          · simp
            omega
          · rename_i h2
            exact le_trans (ih (attempts + 1) _ (k + 1) inits (recov + 1) _ (by omega))
              (by omega)
        · split
          · split
            · rename_i h3
              exact le_trans (ih (attempts + 1) _ (k + 1) inits (recov + 1) _ (by omega))
                (by omega)
            · split
              · rename_i h4
                exact le_trans (ih (attempts + 1) _ (k + 1) (inits + 1) recov _ (by omega))
                  (by omega)
              · simp
                omega
          · split
            · rename_i h5
              exact le_trans (ih (attempts + 1) _ (k + 1) (inits + 1) recov _ (by omega))
                (by omega)
            · simp
              omega
    · rw [call_tool_go, dif_neg hw]
      simp

/-- Inside the budget, the `_call_tool` loop always ends in a returned
result or a raised exception, never by falling off the `while`. -/
theorem call_tool_go_ne_fellThrough (oracle : Nat → CallOutcome CallToolResult)
    (max_attempts : Nat) (n : Nat) :
    ∀ (attempts : Nat) (backoff_s : Rat) (k inits recov : Nat) (sleeps : List Rat),
      max_attempts - attempts ≤ n → attempts < max_attempts →
      (call_tool_go oracle max_attempts attempts backoff_s k inits recov sleeps).outcome ≠
        ToolLoopResult.fellThrough := by
  induction n with
  | zero =>
    intro attempts backoff_s k inits recov sleeps hn hlt
    omega
  | succ n ih =>
    intro attempts backoff_s k inits recov sleeps hn hlt
    rw [call_tool_go, dif_pos hlt]
    split
    · split
      · rename_i h0
        exact ih (attempts + 1) _ (k + 1) (inits + 1) recov _ (by omega) h0.2
      · simp
    · split
      · split
        · simp
        · rename_i h1
          have hlt2 : attempts + 1 < max_attempts := by
            rcases not_or.mp h1 with ⟨-, h⟩
            omega
          exact ih (attempts + 1) _ (k + 1) inits (recov + 1) _ (by omega) hlt2
      · split
        · simp
        · rename_i h2
          exact ih (attempts + 1) _ (k + 1) inits (recov + 1) _ (by omega) (by omega)
      · split
        · simp
        · rename_i h2
          exact ih (attempts + 1) _ (k + 1) inits (recov + 1) _ (by omega) (by omega)
      · split
        · simp
        · rename_i h2
          exact ih (attempts + 1) _ (k + 1) inits (recov + 1) _ (by omega) (by omega)
      · split
        · split
          · rename_i h3
            exact ih (attempts + 1) _ (k + 1) inits (recov + 1) _ (by omega) h3
          · split
            · rename_i h4
              exact ih (attempts + 1) _ (k + 1) (inits + 1) recov _ (by omega) h4.2
            · simp
        · split
          · rename_i h5
            exact ih (attempts + 1) _ (k + 1) (inits + 1) recov _ (by omega) h5.2
          · simp

/-- C1: with a retry budget of `retry_attempts ≥ 0`, a wrapped operation
performs at most `1 + retry_attempts` invocations of the underlying
remote call before returning or giving up, on both the generic
`_call_remote` path and the `_call_tool` path. -/
theorem retry_budget_bounds_invocations (retry_attempts : Nat) :
    (∀ (α : Type) (oracle : Nat → CallOutcome α),
      (_call_remote oracle retry_attempts).calls ≤ 1 + retry_attempts)
    ∧ (∀ oracle : Nat → CallOutcome CallToolResult,
      (call_tool_run oracle retry_attempts).calls ≤ 1 + retry_attempts) := by
  constructor
  · intro α oracle
    simpa [_call_remote] using call_remote_go_calls_le oracle (1 + retry_attempts)
      (1 + retry_attempts) 0 0.5 0 0 [] (by omega) (by omega)
  · intro oracle
    simpa [call_tool_run] using call_tool_go_calls_le oracle (1 + retry_attempts)
      (1 + retry_attempts) 0 0.5 0 0 0 [] (by omega)

/-- C2: a `call_tool` request never propagates an exception to the MCP
transport: the retry loop never falls off the `while`, a raised error
(budget exhausted or non-retryable) is converted by the handler into a
`CallToolResult` with `is_error = true` and a single text item holding
the error summary, and a returned result passes through unchanged. -/
theorem call_tool_never_propagates (oracle : Nat → CallOutcome CallToolResult)
    (retry_attempts : Nat) :
    (call_tool_run oracle retry_attempts).outcome ≠ ToolLoopResult.fellThrough
    ∧ (∀ e : PyExc,
        (call_tool_run oracle retry_attempts).outcome = ToolLoopResult.raised e →
        call_tool_handler oracle retry_attempts =
          some { content := [{ type := "text", text := e.text }], isError := true })
    ∧ (∀ r : CallToolResult,
        (call_tool_run oracle retry_attempts).outcome = ToolLoopResult.returned r →
        call_tool_handler oracle retry_attempts = some r)
    ∧ (∀ e : String, FoxxyBridge._call_tool_facade (Except.error e) =
        { content := [{ type := "text", text := "Error calling tool: " ++ e }],
          isError := true }) := by
  refine ⟨?_, ?_, ?_, fun e => rfl⟩
  · exact call_tool_go_ne_fellThrough oracle (1 + retry_attempts) (1 + retry_attempts)
      0 0.5 0 0 0 [] (by omega) (by omega)
  · intro e he
    unfold call_tool_handler
    rw [he]
  · intro r hr
    unfold call_tool_handler
    rw [hr]

/-- A non-retryable generic failure used as a concrete input. -/
def exBoom : PyExc := PyExc.mk .generic "boom" []

/-- Witness for C2: a non-retryable generic error with a zero budget is
returned as a synthetic error result with the error text. -/
theorem call_tool_never_propagates_witness :
    call_tool_handler (fun _ => CallOutcome.exc exBoom) 0 =
      some { content := [{ type := "text", text := "boom" }], isError := true } := by
  have hraised : (call_tool_run (fun _ => CallOutcome.exc exBoom) 0).outcome =
      ToolLoopResult.raised exBoom := by
    simp [call_tool_run, call_tool_go, exBoom, PyExc.kind, _retryable_status_in_error,
      _iter_exceptions, _retryable_status_in_error.go, _session_error_in_exception,
      _session_error_leaf, strContains, listContains, listPrefixEq, PyExc.text]
  have h := (call_tool_never_propagates (fun _ => CallOutcome.exc exBoom) 0).2.1
    exBoom hraised
  simpa [exBoom, PyExc.text] using h

/-- An oracle whose first remote invocation raises an
`httpx.HTTPStatusError` with the given status and whose second
invocation succeeds. -/
def oracleStatusThenOk (status : Nat) (v : Nat) : Nat → CallOutcome Nat :=
  fun k =>
    if k = 0 then CallOutcome.exc (PyExc.mk (ExcKind.httpStatusError (some status))
      ("Retryable HTTP status: " ++ toString status) [])
    else CallOutcome.ok v

/-- Counterexample to C7 as stated: on a retry triggered by HTTP 404
with budget 1, `_call_remote` sleeps the 0.5 s backoff, not 0 seconds —
`_retry_sleep_for` does return 0 for 404, but the call site's
`... or backoff_s` discards the falsy 0 in favour of the backoff. -/
theorem retry_sleep_404_counterexample :
    (_call_remote (oracleStatusThenOk 404 7) 1).sleeps = [(0.5 : Rat)]
    ∧ ((0.5 : Rat) ≠ 0)
    ∧ _retry_sleep_for (some 404) false = 0 := by
  refine ⟨?_, by norm_num, by rfl⟩
  rw [_call_remote]
  simp [call_remote_go, oracleStatusThenOk, PyExc.kind, _is_retryable_status,
    _retry_sleep_for, pyOrRat]
  norm_num

/-- C7 as amended: a retry on any retryable HTTP status — 404 included —
sleeps the current exponential backoff value (0.5 s on the first retry);
the 0-second entry of the sleep table for 404 is nullified by the
`or backoff_s` defaulting at the call site. -/
theorem retry_sleep_is_backoff_for_all_retryable_statuses (status v retry_attempts : Nat)
    (hr : _is_retryable_status (some status) = true) (hb : 1 ≤ retry_attempts) :
    (_call_remote (oracleStatusThenOk status v) retry_attempts).sleeps = [(0.5 : Rat)] := by
  have hsleep : _retry_sleep_for (some status) false = 0 := by
    unfold _retry_sleep_for
    split <;> rfl
  have h2 : ¬ (1 + retry_attempts ≤ 0 + 1) := by omega
  rw [_call_remote]
  simp [call_remote_go, oracleStatusThenOk, PyExc.kind, hr, hsleep, pyOrRat, h2]
  norm_num

/-- Witness for the amended C7, at status 404 with budget 1. -/
theorem retry_sleep_is_backoff_witness :
    (_call_remote (oracleStatusThenOk 404 7) 1).sleeps = [(0.5 : Rat)] :=
  retry_sleep_is_backoff_for_all_retryable_statuses 404 7 1 (by decide) (by decide)

/-- C8: when a `call_tool` reply is a non-exception result with
`is_error = true` whose text content carries a session-loss marker, and
at least one retry remains in the budget, the loop re-initialises the
session (`inits + 1`) and reissues the call (`k + 1`) instead of
returning that error result: the run from this state equals the run
from the successor state. -/
theorem call_tool_retries_session_error_result
    (oracle : Nat → CallOutcome CallToolResult) (max_attempts attempts : Nat)
    (backoff_s : Rat) (k inits recov : Nat) (sleeps : List Rat) (r : CallToolResult)
    (hor : oracle k = CallOutcome.ok r)
    (hses : _is_session_error_result r = true)
    (hrem : attempts + 1 < max_attempts) :
    call_tool_go oracle max_attempts attempts backoff_s k inits recov sleeps =
      call_tool_go oracle max_attempts (attempts + 1) (min 5 (backoff_s * 2)) (k + 1)
        (inits + 1) recov (sleeps ++ [backoff_s]) := by
  rw [call_tool_go, dif_pos (by omega : attempts < max_attempts), hor]
  exact dif_pos ⟨hses, hrem⟩

/-- A 200-OK tool reply that reports a terminated session in its text
content. -/
def sessionLostResult : CallToolResult :=
  { content := [{ type := "text", text := "Mcp error: 32600: Session terminated" }],
    isError := true }

/-- An oracle whose first `call_tool` reply is `sessionLostResult` and
whose second reply succeeds. -/
def oracleSessionResultThenOk : Nat → CallOutcome CallToolResult :=
  fun k =>
    if k = 0 then CallOutcome.ok sessionLostResult
    else CallOutcome.ok { content := [{ type := "text", text := "ok" }], isError := false }

/-- Witness for C8 at a concrete input: budget 1, first reply is the
session-loss error result. -/
theorem call_tool_retries_session_error_result_witness :
    call_tool_go oracleSessionResultThenOk 2 0 0.5 0 0 0 [] =
      call_tool_go oracleSessionResultThenOk 2 1 (min 5 (0.5 * 2)) 1 1 0 ([] ++ [0.5]) :=
  call_tool_retries_session_error_result oracleSessionResultThenOk 2 0 0.5 0 0 0 []
    sessionLostResult (by rfl) (by decide) (by decide)

/-- Draining the out-of-band queue empties it completely. -/
theorem drain_error_queue_eq_nil (q : List PyExc) : _drain_error_queue q = [] := by
  induction q with
  | nil => rfl
  | cons e rest ih => simpa [_drain_error_queue] using ih

/-- C10: `_await_remote_call` drains the error queue before starting the
call, so its outcome is independent of whatever was enqueued before the
attempt began; an error raised through the queue race can only be one
that arrived while the call was in flight. -/
theorem await_remote_call_ignores_prior_queue {α : Type}
    (queue0 queue0' arrivals : List PyExc) (co : CallOutcome α) (w : RaceWinner)
    (t : String) :
    (_await_remote_call queue0 arrivals co w t = _await_remote_call queue0' arrivals co w t)
    ∧ (∀ e : PyExc, w = RaceWinner.queueError →
        _await_remote_call queue0 arrivals co w t = Except.error e →
        arrivals = [] ∨ e ∈ arrivals) := by
  constructor
  · unfold _await_remote_call
    rw [drain_error_queue_eq_nil, drain_error_queue_eq_nil]
  · intro e hw herr
    unfold _await_remote_call at herr
    rw [drain_error_queue_eq_nil, List.nil_append] at herr
    subst hw
    rcases arrivals with _ | ⟨a, rest⟩
    · exact Or.inl rfl
    · right
      simp only [Except.error.injEq] at herr
      exact herr ▸ List.mem_cons_self a rest

/-- A pre-enqueued 404 status error used as a concrete input. -/
def exStatus404 : PyExc :=
  PyExc.mk (ExcKind.httpStatusError (some 404)) "Retryable HTTP status: 404" []

/-- A 503 status error arriving while the call is in flight. -/
def exStatus503 : PyExc :=
  PyExc.mk (ExcKind.httpStatusError (some 503)) "Retryable HTTP status: 503" []

/-- Witness for C10: with a stale 404 in the queue and a 503 arriving
in flight, the outcome matches a run with an empty starting queue, and
the raised error is the in-flight arrival. -/
theorem await_remote_call_ignores_prior_queue_witness :
    (_await_remote_call [exStatus404] [exStatus503] (CallOutcome.ok 1)
        RaceWinner.queueError "t" =
      _await_remote_call [] [exStatus503] (CallOutcome.ok 1) RaceWinner.queueError "t")
    ∧ ([exStatus503] = [] ∨ exStatus503 ∈ [exStatus503]) := by
  constructor
  · exact (await_remote_call_ignores_prior_queue [exStatus404] [] [exStatus503]
      (CallOutcome.ok 1) RaceWinner.queueError "t").1
  · exact (await_remote_call_ignores_prior_queue [exStatus404] [] [exStatus503]
      (CallOutcome.ok 1) RaceWinner.queueError "t").2 exStatus503 rfl
      (by simp [_await_remote_call, _drain_error_queue, exStatus404, exStatus503])

/-- A backend config with no namespace overrides. -/
def cfgNoNs (nm : String) (prio : Int) : BridgeServerConfig :=
  { name := nm, enabled := true, command := "cmd", args := [], env := [],
    timeout := 60, transport_type := "stdio", retry_attempts := 3, retry_delay := 1000,
    health_check := { enabled := true, interval := 30000, timeout := 5000 },
    tool_namespace := none, resource_namespace := none, prompt_namespace := none,
    priority := prio, tags := [] }

/-- A concrete tool named `x`. -/
def toolX : Tool := { name := "x", description := none, inputSchema := "s" }

/-- A CONNECTED managed server with the given tools. -/
def srvConn (nm : String) (prio : Int) (sess : Nat) (tools : List Tool) : ManagedServer :=
  { name := nm, config := cfgNoNs nm prio, session := some sess,
    health := { status := ServerStatus.connected, last_seen := 0, failure_count := 0,
                last_error := none,
                capabilities := some { tools := true, resources := false, prompts := false } },
    tools := tools, resources := [], prompts := [] }

/-- A bridge configuration with the given conflict policy and
default-namespace flag. -/
def bridgeCfg (cr : String) (defNs : Bool) : BridgeConfig :=
  { conflict_resolution := cr, default_namespace := defNs,
    aggregation := { tools := true, resources := true, prompts := true },
    failover := { enabled := true, max_failures := 3, recovery_interval := 60000 } }

/-- Two active backends that expose the same bare identifier `x`, under
`conflict_resolution = "priority"` with namespacing off. -/
def mgrPriorityDup : ServerManager :=
  { bridge_config := { servers := [], bridge := bridgeCfg "priority" false },
    servers := [("a", srvConn "a" 10 1 [toolX]), ("b", srvConn "b" 20 2 [toolX])] }

/-- C3, evaluated at the failing input: with two active backends both
exposing `x` under `conflict_resolution = "priority"`, the aggregated
listing contains `x` twice — the source's collision branch skips only
under `"first"` and raises only under `"error"`; for `"priority"` (and
`"namespace"`) it falls through and appends the duplicate, despite the
inline comment claiming the case is already handled. -/
theorem aggregated_tools_duplicate_under_priority :
    mgrPriorityDup.get_aggregated_tools = Except.ok [toolX, toolX]
    ∧ mgrPriorityDup.bridge_config.bridge.conflict_resolution = "priority"
    ∧ ((mgrPriorityDup.get_active_servers).map ManagedServer.name = ["a", "b"]) := by
  refine ⟨?_, rfl, rfl⟩
  rfl

/-- The same two backends under `conflict_resolution = "namespace"`
(namespaces still off, so both expose the bare `x`). -/
def mgrNamespaceDup : ServerManager :=
  { bridge_config := { servers := [], bridge := bridgeCfg "namespace" false },
    servers := [("a", srvConn "a" 10 1 [toolX]), ("b", srvConn "b" 20 2 [toolX])] }

/-- C3, `"namespace"` policy: the duplicate is appended as well. -/
theorem aggregated_tools_duplicate_under_namespace_policy :
    mgrNamespaceDup.get_aggregated_tools = Except.ok [toolX, toolX] := by
  rfl

/-- A pool whose dict order is `b` (priority 20) before `a` (priority
10), both CONNECTED and both owning the bare tool `x`. -/
def mgrBareRoute : ServerManager :=
  { bridge_config := { servers := [], bridge := bridgeCfg "first" false },
    servers := [("b", srvConn "b" 20 2 [toolX]), ("a", srvConn "a" 10 1 [toolX])] }

/-- Counterexample to C4 as stated: routing the bare name `x` picks `b`,
the first server in dict insertion order, even though the active backend
`a` has the strictly lower priority value — the bare-name scan iterates
`get_active_servers()`, which the source never sorts by priority. -/
theorem route_bare_ignores_priority_counterexample :
    mgrBareRoute.call_tool_route "x" = Except.ok ("b", "x")
    ∧ ((mgrBareRoute.get_active_servers).map ManagedServer.name = ["b", "a"])
    ∧ (srvConn "a" 10 1 [toolX]).config.priority <
        (srvConn "b" 20 2 [toolX]).config.priority
    ∧ (srvConn "a" 10 1 [toolX]).tools.any (fun tool => tool.name == "x") = true := by
  exact ⟨rfl, rfl, by decide, by decide⟩

/-- C4 as amended: for a bare identifier (no `.` separator), routing
selects the first backend in the manager's dict insertion order — not
priority order — among the active backends whose catalogue contains the
identifier verbatim, and routes to it when its session is set. -/
theorem route_bare_first_in_pool_order (m : ServerManager) (tool_name : String)
    (hsep : splitOnceChar '.' tool_name = none) (srv : ManagedServer)
    (hfind : (m.get_active_servers).find?
        (fun s => s.tools.any (fun tool => tool.name == tool_name)) = some srv)
    (hsess : srv.session.isSome = true) :
    m.call_tool_route tool_name = Except.ok (srv.name, tool_name) := by
  have hp := List.find?_some hfind
  unfold ServerManager.call_tool_route
  rw [hsep]
  simp only [hfind]
  obtain ⟨sid, hsid⟩ := Option.isSome_iff_exists.mp hsess
  rw [hsid]
  simp [hp]

/-- Witness for the amended C4 at the concrete pool above. -/
theorem route_bare_first_in_pool_order_witness :
    mgrBareRoute.call_tool_route "x" = Except.ok ("b", "x") :=
  route_bare_first_in_pool_order mgrBareRoute "x" (by rfl)
    (srvConn "b" 20 2 [toolX]) (by rfl) (by rfl)

/-- A CONNECTED backend one probe failure away from the failover
threshold of 3. -/
def srvAlmostFailed : ManagedServer :=
  { srvConn "b" 20 2 [toolX] with
    health := { status := ServerStatus.connected, last_seen := 0, failure_count := 2,
                last_error := some "err",
                capabilities := some { tools := true, resources := false, prompts := false } } }

/-- A pool holding only that backend, failover threshold 3. -/
def mgrHealth : ServerManager :=
  { bridge_config := { servers := [], bridge := bridgeCfg "namespace" true },
    servers := [("b", srvAlmostFailed)] }

/-- C5, evaluated at the failing input: when the probe failure reaches
`failover.max_failures`, the tick leaves the backend with a null
session, empty catalogues, outside `active_backends()`, and its row
still in the pool — but its final status is DISCONNECTED, not FAILED:
the source sets FAILED and then `_disconnect_server` overwrites it. -/
theorem health_check_failover_eval :
    ((mgrHealth._perform_health_checks 100 (fun _ => ProbeOutcome.fail "probe failed")
        ).servers.map Prod.fst = ["b"])
    ∧ (match (mgrHealth._perform_health_checks 100
          (fun _ => ProbeOutcome.fail "probe failed")).get_server_by_name "b" with
       | some s => s.session = none ∧ s.tools = [] ∧ s.resources = [] ∧ s.prompts = []
           ∧ s.health.failure_count = 3
           ∧ s.health.status = ServerStatus.disconnected
           ∧ s.health.status ≠ ServerStatus.failed
       | none => False)
    ∧ (mgrHealth._perform_health_checks 100
        (fun _ => ProbeOutcome.fail "probe failed")).get_active_servers = [] := by
  refine ⟨rfl, ?_, rfl⟩
  simp only [ServerManager.get_server_by_name]
  refine ⟨rfl, rfl, rfl, rfl, rfl, rfl, by decide⟩

/-- A CONNECTED backend carrying one recorded probe failure. -/
def srvOneFailure : ManagedServer :=
  { srvConn "c" 10 3 [toolX] with
    health := { status := ServerStatus.connected, last_seen := 0, failure_count := 1,
                last_error := some "err",
                capabilities := some { tools := true, resources := false, prompts := false } } }

/-- Counterexample to C6 as stated: a successful probe leaves
`failure_count` at 1 — the success branch of the health check stamps
`last_seen` and nothing else, so the counter is not reset to 0. -/
theorem health_success_keeps_counter_counterexample :
    (health_check_server (bridgeCfg "namespace" true).failover 200 ProbeOutcome.ok
        srvOneFailure).health.failure_count = 1
    ∧ (health_check_server (bridgeCfg "namespace" true).failover 200 ProbeOutcome.ok
        srvOneFailure).health.failure_count ≠ 0
    ∧ (health_check_server (bridgeCfg "namespace" true).failover 200 ProbeOutcome.ok
        srvOneFailure).health.last_seen = 200 := by
  exact ⟨rfl, by decide, rfl⟩

/-- C6 as amended: a successful health probe of a CONNECTED backend with
a live session updates `last_seen` to the probe time and changes nothing
else — in particular the consecutive-failure counter keeps its value and
is only reset when the backend (re)connects. -/
theorem health_success_updates_last_seen_only (failover : FailoverConfig) (now : Rat)
    (server : ManagedServer) (hconn : server.health.status = ServerStatus.connected)
    (hsess : server.session.isSome = true) :
    health_check_server failover now ProbeOutcome.ok server =
      { server with health := { server.health with last_seen := now } } := by
  unfold health_check_server
  rw [if_pos]
  simp [hconn, hsess]

/-- Witness for the amended C6 at the concrete backend above. -/
theorem health_success_updates_last_seen_only_witness :
    health_check_server (bridgeCfg "namespace" true).failover 200 ProbeOutcome.ok
        srvOneFailure =
      { srvOneFailure with
        health := { srvOneFailure.health with last_seen := 200 } } :=
  health_success_updates_last_seen_only (bridgeCfg "namespace" true).failover 200
    srvOneFailure (by rfl) (by rfl)

/-- A greedy scan over characters that all satisfy `p` stops exactly at
the first stopper. -/
theorem spanChars_all_append (p : Char → Bool) (c0 : Char) (r : List Char)
    (hc : p c0 = false) :
    ∀ l : List Char, (∀ c ∈ l, p c = true) →
      spanChars p (l ++ c0 :: r) = (l, c0 :: r) := by
  intro l
  induction l with
  | nil =>
    intro _
    simp [spanChars, hc]
  | cons a as ih =>
    intro hall
    have ha : p a = true := hall a (by simp)
    have ih2 := ih (fun c hc2 => hall c (by simp [hc2]))
    simp [spanChars, ha, ih2]

/-- `parseVar` on a well-formed `NAME\x7d...` tail: name captured, no
default. -/
theorem parseVar_no_default (name : String) (rest : List Char)
    (h1 : name.data ≠ []) (h2 : ∀ c ∈ name.data, nameChar c = true) :
    parseVar (name.data ++ braceClose :: rest) = some (name, none, rest) := by
  unfold parseVar
  rw [spanChars_all_append nameChar braceClose rest (by decide) name.data h2]
  rcases hn : name.data with _ | ⟨a, as⟩
  · exact absurd hn h1
  · have hmk : String.mk (a :: as) = name := by rw [← hn]
    simp [hmk]

/-- `parseVar` on a well-formed `NAME:DEFAULT\x7d...` tail: name and
default captured. -/
theorem parseVar_with_default (name dflt : String) (rest : List Char)
    (h1 : name.data ≠ []) (h2 : ∀ c ∈ name.data, nameChar c = true)
    (hd : ∀ c ∈ dflt.data, defaultChar c = true) :
    parseVar (name.data ++ ':' :: (dflt.data ++ braceClose :: rest)) =
      some (name, some dflt, rest) := by
  unfold parseVar
  rw [spanChars_all_append nameChar ':' (dflt.data ++ braceClose :: rest) (by decide)
    name.data h2]
  rcases hn : name.data with _ | ⟨a, as⟩
  · exact absurd hn h1
  · have hmk : String.mk (a :: as) = name := by rw [← hn]
    have hmkd : String.mk dflt.data = dflt := rfl
    have hcb : ((':' : Char) == braceClose) = false := by decide
    simp [hmk, hcb,
      spanChars_all_append defaultChar braceClose rest (by decide) dflt.data hd, hmkd]

/-- One regex match at the head of the string: the replacement is
`os.getenv(name, default)` and a warning fires exactly when the value is
empty and no default was given. -/
theorem expandChars_match_step (env : String → Option String) (body : List Char)
    (nm : String) (d : Option String) (rest2 : List Char)
    (hp : parseVar body = some (nm, d, rest2)) :
    expandChars env ('$' :: braceOpen :: body) =
      (((env nm).getD (d.getD "")).data ++ (expandChars env rest2).1,
       (if ((env nm).getD (d.getD "") == "" && d.isNone) then [nm] else []) ++
         (expandChars env rest2).2) := by
  rw [expandChars, if_pos ⟨rfl, rfl⟩]
  split
  · rename_i var_name default_opt r2 heq
    rw [hp] at heq
    rw [Option.some.injEq] at heq
    obtain ⟨rfl, rfl, rfl⟩ := Prod.mk.injEq .. ▸ heq
    rfl
  · rename_i heq
    rw [hp] at heq
    exact absurd heq (by simp)

/-- Characters that are not `$` pass through the substitution
verbatim, and scanning continues on the remainder. -/
theorem expandChars_append_no_dollar (env : String → Option String) :
    ∀ a : List Char, (∀ c ∈ a, (c == '$') = false) →
    ∀ rest : List Char, expandChars env (a ++ rest) =
      (a ++ (expandChars env rest).1, (expandChars env rest).2) := by
  intro a
  induction a with
  | nil =>
    intro _ rest
    simp
  | cons c cs ih =>
    intro hall rest
    have hc : ¬ c = '$' := by simpa using hall c (by simp)
    have ih2 := ih (fun x hx => hall x (by simp [hx])) rest
    rcases hcr : cs ++ rest with _ | ⟨c2, rest2⟩
    · rcases List.append_eq_nil.mp hcr with ⟨rfl, rfl⟩
      simp [expandChars]
    · rw [List.cons_append, hcr, expandChars,
        if_neg (by simp [hc] : ¬ (c = '$' ∧ c2 = braceOpen)), ← hcr, ih2]
      simp

/-- The literal configuration string `$\x7bNAME\x7d` or
`$\x7bNAME:default\x7d`. -/
def varPattern (name : String) (dflt : Option String) : String :=
  String.mk ('$' :: braceOpen ::
    (name.data ++ (match dflt with
      | some d => ':' :: (d.data ++ [braceClose])
      | none => [braceClose])))

/-- Structure eta for strings, used to fold `String.mk s.data` back. -/
theorem string_mk_data (s : String) : String.mk s.data = s := rfl

/-- C9: environment expansion of configuration values. A set variable is
substituted by its value (default or not); an unset variable with a
default becomes the literal default with no warning; an unset variable
without a default becomes the empty string and emits a warning naming
it; text without `$` passes through with scanning continuing after it;
objects and arrays are walked recursively; and the loading pipeline
validates only the already-expanded tree. -/
theorem expand_env_vars_spec (env : String → Option String) (name dflt : String)
    (hn1 : name.data ≠ []) (hn2 : ∀ c ∈ name.data, nameChar c = true)
    (hd : ∀ c ∈ dflt.data, defaultChar c = true) :
    (∀ v, env name = some v →
      expand_env_string env (varPattern name none) =
        (v, if v == "" then [name] else [])
      ∧ expand_env_string env (varPattern name (some dflt)) = (v, []))
    ∧ (env name = none →
      expand_env_string env (varPattern name none) = ("", [name])
      ∧ expand_env_string env (varPattern name (some dflt)) = (dflt, []))
    ∧ (∀ s : String, (∀ c ∈ s.data, (c == '$') = false) →
      ∀ rest : List Char, expandChars env (s.data ++ rest) =
        (s.data ++ (expandChars env rest).1, (expandChars env rest).2))
    ∧ (∀ items : List JsonValue, expand_env_vars env (JsonValue.arr items) =
        (JsonValue.arr (items.map (fun j => (expand_env_vars env j).1)),
         (items.map (fun j => (expand_env_vars env j).2)).flatten))
    ∧ (∀ fields : List (String × JsonValue), expand_env_vars env (JsonValue.obj fields) =
        (JsonValue.obj (fields.map (fun p => (p.1, (expand_env_vars env p.2).1))),
         (fields.map (fun p => (expand_env_vars env p.2).2)).flatten))
    ∧ (∀ j : JsonValue, load_bridge_config env j =
        (if bridge_config_valid_shape (expand_env_vars env j).1 then
          Except.ok (expand_env_vars env j)
         else Except.error "Invalid config file format. Missing mcpServers key.")) := by
  have e1 := expandChars_match_step env (name.data ++ [braceClose]) name none []
    (parseVar_no_default name [] hn1 hn2)
  have e2 := expandChars_match_step env
    (name.data ++ ':' :: (dflt.data ++ [braceClose])) name (some dflt) []
    (parseVar_with_default name dflt [] hn1 hn2 hd)
  refine ⟨?_, ?_, ?_, ?_, ?_, ?_⟩
  · intro v hv
    constructor
    · unfold expand_env_string varPattern
      rw [e1]
      simp [expandChars, hv, string_mk_data]
    · unfold expand_env_string varPattern
      rw [e2]
      simp [expandChars, hv, string_mk_data]
  · intro hv
    constructor
    · unfold expand_env_string varPattern
      rw [e1]
      simp [expandChars, hv]
    · unfold expand_env_string varPattern
      rw [e2]
      simp [expandChars, hv, string_mk_data]
  · intro s hs rest
    exact expandChars_append_no_dollar env s.data hs rest
  · intro items
    rw [expand_env_vars]
    simp only [List.map_map]
    rw [show ((Prod.fst ∘ fun x : {x // x ∈ items} => expand_env_vars env x.1)) =
      (fun x : {x // x ∈ items} => (fun j => (expand_env_vars env j).1) x.1) from rfl]
    rw [show ((Prod.snd ∘ fun x : {x // x ∈ items} => expand_env_vars env x.1)) =
      (fun x : {x // x ∈ items} => (fun j => (expand_env_vars env j).2) x.1) from rfl]
    rw [List.attach_map_val items (fun j => (expand_env_vars env j).1)]
    rw [List.attach_map_val items (fun j => (expand_env_vars env j).2)]
  · intro fields
    rw [expand_env_vars]
    simp only [List.map_map]
    rw [show ((fun p : String × (JsonValue × List String) => (p.1, p.2.1)) ∘
        fun x : {x // x ∈ fields} => (x.1.1, expand_env_vars env x.1.2)) =
      (fun x : {x // x ∈ fields} =>
        (fun p : String × JsonValue => (p.1, (expand_env_vars env p.2).1)) x.1) from rfl]
    rw [show ((fun p : String × (JsonValue × List String) => p.2.2) ∘
        fun x : {x // x ∈ fields} => (x.1.1, expand_env_vars env x.1.2)) =
      (fun x : {x // x ∈ fields} =>
        (fun p : String × JsonValue => (expand_env_vars env p.2).2) x.1) from rfl]
    rw [List.attach_map_val fields (fun p => (p.1, (expand_env_vars env p.2).1))]
    rw [List.attach_map_val fields (fun p => (expand_env_vars env p.2).2)]
  · intro j
    rfl

/-- A concrete process environment with only `HOME` set. -/
def envEx : String → Option String := fun n => if n == "HOME" then some "/root" else none

/-- Witness for C9: `$\x7bHOME\x7d` expands to the value of `HOME` with
no warning. -/
theorem expand_env_vars_spec_witness :
    expand_env_string envEx (varPattern "HOME" none) = ("/root", []) := by
  have h := ((expand_env_vars_spec envEx "HOME" "dflt" (by decide) (by decide)
    (by decide)).1 "/root" (by rfl)).1
  simpa using h
